import Mathlib

/-!
Shallow embedding of `core/src/ten_runtime/ten_env/internal/log.c` from the
TEN framework repository: the per-handle logging façade.

The façade's own code (the five public entry points and the two static
internal helpers) is embedded directly from the C source.  Its external
collaborators (`ten_env_check_integrity`, `ten_env_is_closed`,
`ten_env_get_attached_instance_name`, the `ten_string_t` growable buffer,
`ten_log_log` / `ten_log_log_with_size`, and `TEN_ASSERT`) live outside the
given source; they are modelled from the specification's description of
their contracts.

Observable behaviour is a trace of events: handle-field reads (instance-name
resolution), sink submissions (plain and length-qualified), and the
low-level diagnostic write of the closed-handle fast path.  A call either
returns normally with its trace (`ok`), aborts on an assertion
(`fatal`), or hits undefined behaviour such as `strlen(NULL)`
(`undefined`).  The POSIX build is modelled: the `dprintf` of the
closed-handle path is compiled in (`OS_WINDOWS` not defined).
-/

/-- A log level (`TEN_LOG_LEVEL`), an ordered severity; opaque here. -/
abbrev TEN_LOG_LEVEL := Nat

/-- Opaque structured-fields value (`ten_value_t *`); `none` models NULL. -/
abbrev FieldsPtr := Option Nat

/-- A possibly-NULL C string pointer; `none` models NULL. -/
abbrev CStr := Option String

/-- The runtime-environment handle (`ten_env_t`) as the façade sees it:
an attached instance name, an owning-thread descriptor and a monotonic
closed flag.  The façade only reads these. -/
structure ten_env_t where
  attachedInstanceName : String
  owningThread : Nat
  isClosed : Bool
deriving DecidableEq, Repr

/-- An argument consumed by the format-string expansion. -/
inductive FmtArg where
  | int (i : Int)
  | str (s : String)
deriving DecidableEq, Repr

/-- An observable event of a façade call. -/
inductive Event where
  /-- A read of the handle's instance name (`ten_env_get_attached_instance_name`),
  recording the thread-check flag passed down and the name obtained. -/
  | resolveName (checkThread : Bool) (name : String)
  /-- A plain (null-terminated) sink submission, `ten_log_log`. -/
  | logLog (level : TEN_LOG_LEVEL) (funcName fileName : CStr) (lineNo : Nat)
      (msg : String) (category : CStr) (fields : FieldsPtr)
  /-- A length-qualified sink submission, `ten_log_log_with_size`. -/
  | logLogWithSize (level : TEN_LOG_LEVEL) (funcName : CStr) (funcNameLen : Nat)
      (fileName : CStr) (fileNameLen : Nat) (lineNo : Nat)
      (msg : String) (msgLen : Nat) (category : CStr) (categoryLen : Nat)
      (fields : FieldsPtr)
  /-- An unbuffered write to the low-level error channel (`dprintf(STDERR_FILENO, ...)`). -/
  | diagWrite (text : String)
deriving DecidableEq, Repr

/-- Outcome of one façade call. -/
inductive LogResult where
  /-- The call returned normally, having produced these events in order. -/
  | ok (events : List Event)
  /-- A fatal assertion fired (`TEN_ASSERT` abort). -/
  | fatal
  /-- Undefined behaviour, e.g. `strlen` applied to a NULL pointer. -/
  | undefined
deriving DecidableEq, Repr

/-- Modelled from the spec: the ClosedStateGuard collaborator
`ten_env_is_closed` reports the handle's closed flag. -/
def ten_env_is_closed (self : ten_env_t) : Bool :=
  self.isClosed

/-- Modelled from the spec: the ThreadIntegrityGate collaborator
`ten_env_check_integrity` checks, when `checkThread` is set, that the
calling thread equals the handle's owning thread; with `checkThread`
false the check is skipped and the gate passes. -/
def ten_env_check_integrity (self : ten_env_t) (checkThread : Bool)
    (caller : Nat) : Bool :=
  if checkThread then caller == self.owningThread else true

/-- Modelled from the spec: `ten_env_get_attached_instance_name` resolves
the handle's human-readable instance name, itself respecting the
thread-check flag passed down. -/
def ten_env_get_attached_instance_name (self : ten_env_t)
    (_checkThread : Bool) : String :=
  self.attachedInstanceName

/-- Modelled from the spec: expansion of a printf-style format string
against an argument list into a dynamically sized buffer, never
truncating (`%d`, `%s` and `%%` suffice for this development). -/
def formatExpand : List Char → List FmtArg → String
  | [], _ => ""
  | '%' :: 'd' :: rest, FmtArg.int i :: args => toString i ++ formatExpand rest args
  | '%' :: 's' :: rest, FmtArg.str s :: args => s ++ formatExpand rest args
  | '%' :: '%' :: rest, args => "%" ++ formatExpand rest args
  | c :: rest, args => String.singleton c ++ formatExpand rest args

/-- Modelled from the spec: `ten_string_append_from_va_list` appends the
full expansion of `fmt` against `ap` to the growable buffer `s`. -/
def ten_string_append_from_va_list (s : String) (fmt : String)
    (ap : List FmtArg) : String :=
  s ++ formatExpand fmt.data ap

/-- `strlen` on a possibly-NULL C string: byte length, or no result (UB)
on NULL. -/
def strlen : CStr → Option Nat
  | some s => some s.utf8ByteSize
  | none => none

/-- Embeds static `ten_env_log_internal`: assert integrity (fatal on
violation), compose `"[%s] %s"` with the resolved instance name and the
verbatim message into a `ten_string_t`, submit via plain `ten_log_log`. -/
def ten_env_log_internal (self : ten_env_t) (caller : Nat)
    (level : TEN_LOG_LEVEL) (funcName fileName : CStr) (lineNo : Nat)
    (msg : String) (category : CStr) (fields : FieldsPtr)
    (checkThread : Bool) : LogResult :=
  if ten_env_check_integrity self checkThread caller then
    let name := ten_env_get_attached_instance_name self checkThread
    let finalMsg := "[" ++ name ++ "] " ++ msg
    .ok [.resolveName checkThread name,
         .logLog level funcName fileName lineNo finalMsg category fields]
  else
    .fatal

/-- Embeds `ten_env_log_without_check_thread`: the addon carve-out, same
as the internal path with `check_thread = false`. -/
def ten_env_log_without_check_thread (self : ten_env_t) (caller : Nat)
    (level : TEN_LOG_LEVEL) (funcName fileName : CStr) (lineNo : Nat)
    (msg : String) (category : CStr) (fields : FieldsPtr) : LogResult :=
  ten_env_log_internal self caller level funcName fileName lineNo msg
    category fields false

/-- Embeds `ten_env_log`: if the handle is closed, one `dprintf` to
stderr with the literal message and a closed tag, then return; otherwise
the internal path with `check_thread = true`. -/
def ten_env_log (self : ten_env_t) (caller : Nat) (level : TEN_LOG_LEVEL)
    (funcName fileName : CStr) (lineNo : Nat) (msg : String)
    (category : CStr) (fields : FieldsPtr) : LogResult :=
  if ten_env_is_closed self then
    .ok [.diagWrite ("ten_env_log failed due to closed: " ++ msg ++ "\n")]
  else
    ten_env_log_internal self caller level funcName fileName lineNo msg
      category fields true

/-- Embeds static `ten_env_log_with_size_formatted_internal`: assert
integrity, compose `"[%s] "` with the resolved name, append the full
format expansion, submit via length-qualified `ten_log_log_with_size`
with the buffer's known byte length. -/
def ten_env_log_with_size_formatted_internal (self : ten_env_t)
    (caller : Nat) (level : TEN_LOG_LEVEL) (funcName : CStr)
    (funcNameLen : Nat) (fileName : CStr) (fileNameLen : Nat)
    (lineNo : Nat) (checkThread : Bool) (category : CStr)
    (categoryLen : Nat) (fields : FieldsPtr) (fmt : String)
    (ap : List FmtArg) : LogResult :=
  if ten_env_check_integrity self checkThread caller then
    let name := ten_env_get_attached_instance_name self checkThread
    let finalMsg := ten_string_append_from_va_list ("[" ++ name ++ "] ") fmt ap
    .ok [.resolveName checkThread name,
         .logLogWithSize level funcName funcNameLen fileName fileNameLen
           lineNo finalMsg finalMsg.utf8ByteSize category categoryLen fields]
  else
    .fatal

/-- Embeds `ten_env_log_with_size_formatted_without_check_thread`: the
addon carve-out of the explicit-length formatted path. -/
def ten_env_log_with_size_formatted_without_check_thread
    (self : ten_env_t) (caller : Nat) (level : TEN_LOG_LEVEL)
    (funcName : CStr) (funcNameLen : Nat) (fileName : CStr)
    (fileNameLen : Nat) (lineNo : Nat) (category : CStr)
    (categoryLen : Nat) (fields : FieldsPtr) (fmt : String)
    (ap : List FmtArg) : LogResult :=
  ten_env_log_with_size_formatted_internal self caller level funcName
    funcNameLen fileName fileNameLen lineNo false category categoryLen
    fields fmt ap

/-- Embeds `ten_env_log_with_size_formatted`: the checked explicit-length
formatted entry point. -/
def ten_env_log_with_size_formatted (self : ten_env_t) (caller : Nat)
    (level : TEN_LOG_LEVEL) (funcName : CStr) (funcNameLen : Nat)
    (fileName : CStr) (fileNameLen : Nat) (lineNo : Nat) (category : CStr)
    (categoryLen : Nat) (fields : FieldsPtr) (fmt : String)
    (ap : List FmtArg) : LogResult :=
  ten_env_log_with_size_formatted_internal self caller level funcName
    funcNameLen fileName fileNameLen lineNo true category categoryLen
    fields fmt ap

/-- Embeds `ten_env_log_formatted`: derives the function- and file-name
lengths with `strlen` (undefined behaviour on NULL, before any guard in
the callee runs) and delegates to the checked explicit-length internal
path. -/
def ten_env_log_formatted (self : ten_env_t) (caller : Nat)
    (level : TEN_LOG_LEVEL) (funcName fileName : CStr) (lineNo : Nat)
    (category : CStr) (categoryLen : Nat) (fields : FieldsPtr)
    (fmt : String) (ap : List FmtArg) : LogResult :=
  match strlen funcName, strlen fileName with
  | some funcNameLen, some fileNameLen =>
      ten_env_log_with_size_formatted_internal self caller level funcName
        funcNameLen fileName fileNameLen lineNo true category categoryLen
        fields fmt ap
  | _, _ => .undefined

/-- Whether an event is a sink submission. -/
def Event.isSink : Event → Bool
  | .logLog _ _ _ _ _ _ _ => true
  | .logLogWithSize _ _ _ _ _ _ _ _ _ _ _ => true
  | _ => false

/-- Whether a call delivered at least one record to the global sink. -/
def deliversRecord : LogResult → Bool
  | .ok es => es.any Event.isSink
  | _ => false

/-- Whether a call dispatched through the length-qualified sink form. -/
def usesLengthQualified : LogResult → Bool
  | .ok es => es.any fun e =>
      match e with
      | .logLogWithSize _ _ _ _ _ _ _ _ _ _ _ => true
      | _ => false
  | _ => false

/-- The message of the first sink submission of a call, if any. -/
def submittedMessage : LogResult → Option String
  | .ok es => es.findSome? fun e =>
      match e with
      | .logLog _ _ _ _ m _ _ => some m
      | .logLogWithSize _ _ _ _ _ _ m _ _ _ _ => some m
      | _ => none
  | _ => none

/-- The category and fields of the first sink submission of a call. -/
def submittedCategoryFields : LogResult → Option (CStr × FieldsPtr)
  | .ok es => es.findSome? fun e =>
      match e with
      | .logLog _ _ _ _ _ c f => some (c, f)
      | .logLogWithSize _ _ _ _ _ _ _ _ c _ f => some (c, f)
      | _ => none
  | _ => none

/-- The category length of the first length-qualified sink submission. -/
def submittedCategoryLen : LogResult → Option Nat
  | .ok es => es.findSome? fun e =>
      match e with
      | .logLogWithSize _ _ _ _ _ _ _ _ _ cl _ => some cl
      | _ => none
  | _ => none

/-- Whether the call hit undefined behaviour. -/
def LogResult.isUndefined : LogResult → Bool
  | .undefined => true
  | _ => false

/-- Claim C1, counterexample: on a handle whose closed flag is true, the
unchecked direct entry point still resolves the instance name (a field
read) and still submits a record to the global sink, so the claim as
stated — no field read and no submission on any closed handle, for every
entry point — is false. -/
theorem C1_counterexample :
    (ten_env_t.mk "ext" 1 true).isClosed = true ∧
    ten_env_log_without_check_thread (ten_env_t.mk "ext" 1 true) 1 0
        (some "f") (some "file.c") 10 "hello" none none
      = .ok [.resolveName false "ext",
             .logLog 0 (some "f") (some "file.c") 10 "[ext] hello" none none] := by
  constructor <;> rfl

/-- Claim C1, amended: `ten_env_log` is the only entry point that
consults the closed flag; on a closed handle it resolves no instance
name and submits no record, its only effect being the single diagnostic
write.  The other four entry points do not consult the closed flag at
all: on a closed handle, whenever the integrity gate passes (here the
owning thread calls, so both the checked and the unchecked gates pass),
every one of them — unchecked direct, checked formatted with derived
lengths, checked formatted with explicit lengths, and unchecked
formatted — still resolves the instance name and submits a record. -/
theorem C1_amended (self : ten_env_t) (caller : Nat)
    (level : TEN_LOG_LEVEL) (fn fl : String) (funcNameLen fileNameLen : Nat)
    (lineNo : Nat) (msg : String) (category : CStr) (categoryLen : Nat)
    (fields : FieldsPtr) (fmt : String) (ap : List FmtArg)
    (hclosed : self.isClosed = true) (hthread : caller = self.owningThread) :
    ten_env_log self caller level (some fn) (some fl) lineNo msg category fields
      = .ok [.diagWrite ("ten_env_log failed due to closed: " ++ msg ++ "\n")] ∧
    ten_env_log_without_check_thread self caller level (some fn) (some fl)
        lineNo msg category fields
      = .ok [.resolveName false self.attachedInstanceName,
             .logLog level (some fn) (some fl) lineNo
               ("[" ++ self.attachedInstanceName ++ "] " ++ msg)
               category fields] ∧
    ten_env_log_formatted self caller level (some fn) (some fl) lineNo
        category categoryLen fields fmt ap
      = .ok [.resolveName true self.attachedInstanceName,
             .logLogWithSize level (some fn) fn.utf8ByteSize (some fl)
               fl.utf8ByteSize lineNo
               ("[" ++ self.attachedInstanceName ++ "] "
                 ++ formatExpand fmt.data ap)
               ("[" ++ self.attachedInstanceName ++ "] "
                 ++ formatExpand fmt.data ap).utf8ByteSize
               category categoryLen fields] ∧
    ten_env_log_with_size_formatted self caller level (some fn) funcNameLen
        (some fl) fileNameLen lineNo category categoryLen fields fmt ap
      = .ok [.resolveName true self.attachedInstanceName,
             .logLogWithSize level (some fn) funcNameLen (some fl)
               fileNameLen lineNo
               ("[" ++ self.attachedInstanceName ++ "] "
                 ++ formatExpand fmt.data ap)
               ("[" ++ self.attachedInstanceName ++ "] "
                 ++ formatExpand fmt.data ap).utf8ByteSize
               category categoryLen fields] ∧
    ten_env_log_with_size_formatted_without_check_thread self caller level
        (some fn) funcNameLen (some fl) fileNameLen lineNo category
        categoryLen fields fmt ap
      = .ok [.resolveName false self.attachedInstanceName,
             .logLogWithSize level (some fn) funcNameLen (some fl)
               fileNameLen lineNo
               ("[" ++ self.attachedInstanceName ++ "] "
                 ++ formatExpand fmt.data ap)
               ("[" ++ self.attachedInstanceName ++ "] "
                 ++ formatExpand fmt.data ap).utf8ByteSize
               category categoryLen fields] := by
  refine ⟨?_, ?_, ?_, ?_, ?_⟩
  · simp [ten_env_log, ten_env_is_closed, hclosed]
  · simp [ten_env_log_without_check_thread, ten_env_log_internal,
          ten_env_check_integrity, ten_env_get_attached_instance_name]
  · simp [ten_env_log_formatted, strlen,
          ten_env_log_with_size_formatted_internal, ten_env_check_integrity,
          hthread, ten_env_get_attached_instance_name,
          ten_string_append_from_va_list]
  · simp [ten_env_log_with_size_formatted,
          ten_env_log_with_size_formatted_internal, ten_env_check_integrity,
          hthread, ten_env_get_attached_instance_name,
          ten_string_append_from_va_list]
  · simp [ten_env_log_with_size_formatted_without_check_thread,
          ten_env_log_with_size_formatted_internal, ten_env_check_integrity,
          ten_env_get_attached_instance_name,
          ten_string_append_from_va_list]

/-- Witness for C1_amended at a concrete closed handle called from its
owning thread: only `ten_env_log` degrades to the diagnostic; the other
four entry points all resolve the name and submit a record. -/
theorem C1_amended_witness :
    ten_env_log (ten_env_t.mk "ext" 1 true) 1 0 (some "f") (some "file.c")
        10 "hello" none none
      = .ok [.diagWrite "ten_env_log failed due to closed: hello\n"] ∧
    ten_env_log_without_check_thread (ten_env_t.mk "ext" 1 true) 1 0
        (some "f") (some "file.c") 10 "hello" none none
      = .ok [.resolveName false "ext",
             .logLog 0 (some "f") (some "file.c") 10 "[ext] hello" none none] ∧
    ten_env_log_formatted (ten_env_t.mk "ext" 1 true) 1 0 (some "f")
        (some "file.c") 10 none 0 none "hi" []
      = .ok [.resolveName true "ext",
             .logLogWithSize 0 (some "f") 1 (some "file.c") 6 10
               "[ext] hi" 8 none 0 none] ∧
    ten_env_log_with_size_formatted (ten_env_t.mk "ext" 1 true) 1 0
        (some "f") 1 (some "file.c") 6 10 none 0 none "hi" []
      = .ok [.resolveName true "ext",
             .logLogWithSize 0 (some "f") 1 (some "file.c") 6 10
               "[ext] hi" 8 none 0 none] ∧
    ten_env_log_with_size_formatted_without_check_thread
        (ten_env_t.mk "ext" 1 true) 1 0 (some "f") 1 (some "file.c") 6 10
        none 0 none "hi" []
      = .ok [.resolveName false "ext",
             .logLogWithSize 0 (some "f") 1 (some "file.c") 6 10
               "[ext] hi" 8 none 0 none] := by
  have h := C1_amended (ten_env_t.mk "ext" 1 true) 1 0 "f" "file.c" 1 6
    10 "hello" none 0 none "hi" [] rfl rfl
  exact ⟨h.1, h.2.1, by rw [h.2.2.1]; rfl, by rw [h.2.2.2.1]; rfl,
         by rw [h.2.2.2.2]; rfl⟩

/-- Claim C2: on a closed handle, `ten_env_log` performs exactly one
diagnostic write to the low-level error channel — the literal
caller-supplied message, unprefixed, tagged with the closed-state
failure intent — and returns normally with no record built or
dispatched and no other effect. -/
theorem C2_closed_diagnostic (self : ten_env_t) (caller : Nat)
    (level : TEN_LOG_LEVEL) (funcName fileName : CStr) (lineNo : Nat)
    (msg : String) (category : CStr) (fields : FieldsPtr)
    (hclosed : self.isClosed = true) :
    ten_env_log self caller level funcName fileName lineNo msg category fields
      = .ok [.diagWrite ("ten_env_log failed due to closed: " ++ msg ++ "\n")] := by
  simp [ten_env_log, ten_env_is_closed, hclosed]

/-- Witness for C2_closed_diagnostic at a concrete closed handle. -/
theorem C2_closed_diagnostic_witness :
    ten_env_log (ten_env_t.mk "worker" 7 true) 7 3 (some "fn") (some "a.c")
        42 "boom" (some "cat") (some 5)
      = .ok [.diagWrite "ten_env_log failed due to closed: boom\n"] :=
  C2_closed_diagnostic (ten_env_t.mk "worker" 7 true) 7 3 (some "fn")
    (some "a.c") 42 "boom" (some "cat") (some 5) rfl

/-- Claim C3: on an open handle, called from its owning thread, the
checked entry points deliver exactly one record whose message is
`"[" + name + "] "` followed by the body — the verbatim message for the
direct shape, the full format expansion for the formatted shape. -/
theorem C3_message_prefix (self : ten_env_t) (caller : Nat)
    (level : TEN_LOG_LEVEL) (funcName : CStr) (funcNameLen : Nat)
    (fileName : CStr) (fileNameLen : Nat) (lineNo : Nat) (msg : String)
    (category : CStr) (categoryLen : Nat) (fields : FieldsPtr)
    (fmt : String) (ap : List FmtArg)
    (hopen : self.isClosed = false) (hthread : caller = self.owningThread) :
    ten_env_log self caller level funcName fileName lineNo msg category fields
      = .ok [.resolveName true self.attachedInstanceName,
             .logLog level funcName fileName lineNo
               ("[" ++ self.attachedInstanceName ++ "] " ++ msg)
               category fields] ∧
    ten_env_log_with_size_formatted self caller level funcName funcNameLen
        fileName fileNameLen lineNo category categoryLen fields fmt ap
      = .ok [.resolveName true self.attachedInstanceName,
             .logLogWithSize level funcName funcNameLen fileName fileNameLen
               lineNo
               ("[" ++ self.attachedInstanceName ++ "] "
                 ++ formatExpand fmt.data ap)
               ("[" ++ self.attachedInstanceName ++ "] "
                 ++ formatExpand fmt.data ap).utf8ByteSize
               category categoryLen fields] := by
  constructor
  · simp [ten_env_log, ten_env_is_closed, hopen, ten_env_log_internal,
          ten_env_check_integrity, hthread,
          ten_env_get_attached_instance_name]
  · simp [ten_env_log_with_size_formatted,
          ten_env_log_with_size_formatted_internal, ten_env_check_integrity,
          hthread, ten_env_get_attached_instance_name,
          ten_string_append_from_va_list]

/-- Witness for C3_message_prefix at a concrete open handle and call. -/
theorem C3_message_prefix_witness :
    ten_env_log (ten_env_t.mk "ext" 4 false) 4 2 (some "fn") (some "a.c")
        9 "hi" (some "cat") (some 1)
      = .ok [.resolveName true "ext",
             .logLog 2 (some "fn") (some "a.c") 9 "[ext] hi"
               (some "cat") (some 1)] ∧
    ten_env_log_with_size_formatted (ten_env_t.mk "ext" 4 false) 4 2
        (some "fn") 2 (some "a.c") 3 9 (some "cat") 3 (some 1)
        "%d items" [FmtArg.int 5]
      = .ok [.resolveName true "ext",
             .logLogWithSize 2 (some "fn") 2 (some "a.c") 3 9
               "[ext] 5 items" 13 (some "cat") 3 (some 1)] := by
  have h := C3_message_prefix (ten_env_t.mk "ext" 4 false) 4 2 (some "fn")
    2 (some "a.c") 3 9 "hi" (some "cat") 3 (some 1) "%d items"
    [FmtArg.int 5] rfl rfl
  exact ⟨h.1, by rw [h.2]; rfl⟩

/-- Claim C4: `ten_env_log_formatted` produces the identical composed
record as `ten_env_log_with_size_formatted` called with the same inputs
plus the correct `strlen` lengths of the function and file names. -/
theorem C4_formatted_refines_with_size (self : ten_env_t) (caller : Nat)
    (level : TEN_LOG_LEVEL) (funcName fileName : String) (lineNo : Nat)
    (category : CStr) (categoryLen : Nat) (fields : FieldsPtr)
    (fmt : String) (ap : List FmtArg) :
    ten_env_log_formatted self caller level (some funcName) (some fileName)
        lineNo category categoryLen fields fmt ap
      = ten_env_log_with_size_formatted self caller level (some funcName)
          funcName.utf8ByteSize (some fileName) fileName.utf8ByteSize
          lineNo category categoryLen fields fmt ap := by
  rfl

/-- Claim C5: on an open handle, a checked entry point called from any
thread other than the owning thread takes the fatal assertion path, and
no record — the `fatal` outcome carries no sink event — is delivered. -/
theorem C5_cross_thread_fatal (self : ten_env_t) (caller : Nat)
    (level : TEN_LOG_LEVEL) (funcName fileName : String)
    (funcNameLen fileNameLen : Nat) (lineNo : Nat) (msg : String)
    (category : CStr) (categoryLen : Nat) (fields : FieldsPtr)
    (fmt : String) (ap : List FmtArg)
    (hopen : self.isClosed = false)
    (hthread : caller ≠ self.owningThread) :
    ten_env_log self caller level (some funcName) (some fileName) lineNo
        msg category fields = .fatal ∧
    ten_env_log_formatted self caller level (some funcName) (some fileName)
        lineNo category categoryLen fields fmt ap = .fatal ∧
    ten_env_log_with_size_formatted self caller level (some funcName)
        funcNameLen (some fileName) fileNameLen lineNo category categoryLen
        fields fmt ap = .fatal ∧
    deliversRecord LogResult.fatal = false := by
  refine ⟨?_, ?_, ?_, rfl⟩
  · simp [ten_env_log, ten_env_is_closed, hopen, ten_env_log_internal,
          ten_env_check_integrity, hthread]
  · simp [ten_env_log_formatted, strlen,
          ten_env_log_with_size_formatted_internal, ten_env_check_integrity,
          hthread]
  · simp [ten_env_log_with_size_formatted,
          ten_env_log_with_size_formatted_internal, ten_env_check_integrity,
          hthread]

/-- Witness for C5_cross_thread_fatal: caller thread 2, owning thread 1. -/
theorem C5_cross_thread_fatal_witness :
    ten_env_log (ten_env_t.mk "ext" 1 false) 2 0 (some "fn") (some "a.c")
        5 "m" none none = .fatal ∧
    ten_env_log_formatted (ten_env_t.mk "ext" 1 false) 2 0 (some "fn")
        (some "a.c") 5 none 0 none "x" [] = .fatal ∧
    ten_env_log_with_size_formatted (ten_env_t.mk "ext" 1 false) 2 0
        (some "fn") 2 (some "a.c") 3 5 none 0 none "x" [] = .fatal ∧
    deliversRecord LogResult.fatal = false :=
  C5_cross_thread_fatal (ten_env_t.mk "ext" 1 false) 2 0 "fn" "a.c" 2 3 5
    "m" none 0 none "x" [] rfl (by decide)

/-- Claim C6: on a non-closed handle, the unchecked entry points never
take the fatal path from any thread: the integrity gate receives
`enforce = false` and the call completes normally with its record. -/
theorem C6_unchecked_never_fatal (self : ten_env_t) (caller : Nat)
    (level : TEN_LOG_LEVEL) (funcName : CStr) (funcNameLen : Nat)
    (fileName : CStr) (fileNameLen : Nat) (lineNo : Nat) (msg : String)
    (category : CStr) (categoryLen : Nat) (fields : FieldsPtr)
    (fmt : String) (ap : List FmtArg)
    (_hnotclosed : self.isClosed = false) :
    ten_env_log_without_check_thread self caller level funcName fileName
        lineNo msg category fields
      = .ok [.resolveName false self.attachedInstanceName,
             .logLog level funcName fileName lineNo
               ("[" ++ self.attachedInstanceName ++ "] " ++ msg)
               category fields] ∧
    ten_env_log_with_size_formatted_without_check_thread self caller level
        funcName funcNameLen fileName fileNameLen lineNo category
        categoryLen fields fmt ap
      = .ok [.resolveName false self.attachedInstanceName,
             .logLogWithSize level funcName funcNameLen fileName fileNameLen
               lineNo
               ("[" ++ self.attachedInstanceName ++ "] "
                 ++ formatExpand fmt.data ap)
               ("[" ++ self.attachedInstanceName ++ "] "
                 ++ formatExpand fmt.data ap).utf8ByteSize
               category categoryLen fields] := by
  constructor
  · simp [ten_env_log_without_check_thread, ten_env_log_internal,
          ten_env_check_integrity, ten_env_get_attached_instance_name]
  · simp [ten_env_log_with_size_formatted_without_check_thread,
          ten_env_log_with_size_formatted_internal, ten_env_check_integrity,
          ten_env_get_attached_instance_name,
          ten_string_append_from_va_list]

/-- Witness for C6_unchecked_never_fatal: caller thread 9 differs from
the owning thread 1 and the calls still complete normally. -/
theorem C6_unchecked_never_fatal_witness :
    ten_env_log_without_check_thread (ten_env_t.mk "addon" 1 false) 9 0
        (some "fn") (some "a.c") 5 "m" none none
      = .ok [.resolveName false "addon",
             .logLog 0 (some "fn") (some "a.c") 5 "[addon] m" none none] ∧
    ten_env_log_with_size_formatted_without_check_thread
        (ten_env_t.mk "addon" 1 false) 9 0 (some "fn") 2 (some "a.c") 3 5
        none 0 none "m" []
      = .ok [.resolveName false "addon",
             .logLogWithSize 0 (some "fn") 2 (some "a.c") 3 5 "[addon] m" 9
               none 0 none] := by
  have h := C6_unchecked_never_fatal (ten_env_t.mk "addon" 1 false) 9 0
    (some "fn") 2 (some "a.c") 3 5 "m" none 0 none "m" [] rfl
  exact ⟨h.1, by rw [h.2]; rfl⟩

/-- Claim C7: on every call that reaches dispatch, the category (and,
on the length-qualified path, its length) and the fields value are
forwarded to the sink submission unchanged — the identical values. -/
theorem C7_category_fields_identity (self : ten_env_t) (caller : Nat)
    (level : TEN_LOG_LEVEL) (funcName : CStr) (funcNameLen : Nat)
    (fileName : CStr) (fileNameLen : Nat) (lineNo : Nat) (msg : String)
    (category : CStr) (categoryLen : Nat) (fields : FieldsPtr)
    (fmt : String) (ap : List FmtArg)
    (hopen : self.isClosed = false) (hthread : caller = self.owningThread) :
    submittedCategoryFields
        (ten_env_log self caller level funcName fileName lineNo msg
          category fields)
      = some (category, fields) ∧
    submittedCategoryFields
        (ten_env_log_with_size_formatted self caller level funcName
          funcNameLen fileName fileNameLen lineNo category categoryLen
          fields fmt ap)
      = some (category, fields) ∧
    submittedCategoryLen
        (ten_env_log_with_size_formatted self caller level funcName
          funcNameLen fileName fileNameLen lineNo category categoryLen
          fields fmt ap)
      = some categoryLen := by
  refine ⟨?_, ?_, ?_⟩ <;>
    simp [ten_env_log, ten_env_is_closed, hopen, ten_env_log_internal,
          ten_env_log_with_size_formatted,
          ten_env_log_with_size_formatted_internal, ten_env_check_integrity,
          hthread, submittedCategoryFields, submittedCategoryLen,
          List.findSome?]

/-- Witness for C7_category_fields_identity at a concrete call. -/
theorem C7_category_fields_identity_witness :
    submittedCategoryFields
        (ten_env_log (ten_env_t.mk "ext" 3 false) 3 1 (some "fn")
          (some "a.c") 8 "m" (some "net") (some 11))
      = some (some "net", some 11) ∧
    submittedCategoryFields
        (ten_env_log_with_size_formatted (ten_env_t.mk "ext" 3 false) 3 1
          (some "fn") 2 (some "a.c") 3 8 (some "net") 3 (some 11) "m" [])
      = some (some "net", some 11) ∧
    submittedCategoryLen
        (ten_env_log_with_size_formatted (ten_env_t.mk "ext" 3 false) 3 1
          (some "fn") 2 (some "a.c") 3 8 (some "net") 3 (some 11) "m" [])
      = some 3 :=
  C7_category_fields_identity (ten_env_t.mk "ext" 3 false) 3 1 (some "fn")
    2 (some "a.c") 3 8 "m" (some "net") 3 (some 11) "m" [] rfl rfl

/-- Claim C8, counterexample: the direct-message path composes its
message in a growable `ten_string_t` buffer whose length is known, yet
dispatches through the plain null-terminated sink form `ten_log_log`,
not the length-qualified one — so the claim that every such entry
point, the direct path included, uses the length-qualified form is
false. -/
theorem C8_counterexample :
    usesLengthQualified
        (ten_env_log (ten_env_t.mk "ext" 1 false) 1 0 (some "fn")
          (some "a.c") 5 "m" (some "cat") none)
      = false ∧
    deliversRecord
        (ten_env_log (ten_env_t.mk "ext" 1 false) 1 0 (some "fn")
          (some "a.c") 5 "m" (some "cat") none)
      = true := by
  constructor <;> rfl

/-- Claim C8, amended: the formatted entry points dispatch through the
length-qualified sink form, passing the composed buffer's known length;
the direct-message path, although it also composes into a growable
buffer, dispatches through the plain null-terminated form. -/
theorem C8_amended (self : ten_env_t) (caller : Nat)
    (level : TEN_LOG_LEVEL) (funcName : CStr) (funcNameLen : Nat)
    (fileName : CStr) (fileNameLen : Nat) (lineNo : Nat) (msg : String)
    (category : CStr) (categoryLen : Nat) (fields : FieldsPtr)
    (fmt : String) (ap : List FmtArg)
    (hopen : self.isClosed = false) (hthread : caller = self.owningThread) :
    usesLengthQualified
        (ten_env_log_with_size_formatted self caller level funcName
          funcNameLen fileName fileNameLen lineNo category categoryLen
          fields fmt ap)
      = true ∧
    deliversRecord
        (ten_env_log_with_size_formatted self caller level funcName
          funcNameLen fileName fileNameLen lineNo category categoryLen
          fields fmt ap)
      = true ∧
    usesLengthQualified
        (ten_env_log self caller level funcName fileName lineNo msg
          category fields)
      = false ∧
    deliversRecord
        (ten_env_log self caller level funcName fileName lineNo msg
          category fields)
      = true := by
  refine ⟨?_, ?_, ?_, ?_⟩ <;>
    simp [ten_env_log, ten_env_is_closed, hopen, ten_env_log_internal,
          ten_env_log_with_size_formatted,
          ten_env_log_with_size_formatted_internal, ten_env_check_integrity,
          hthread, usesLengthQualified, deliversRecord, Event.isSink]

/-- Witness for C8_amended at a concrete open handle and call. -/
theorem C8_amended_witness :
    usesLengthQualified
        (ten_env_log_with_size_formatted (ten_env_t.mk "ext" 1 false) 1 0
          (some "fn") 2 (some "a.c") 3 5 (some "cat") 3 none "m" [])
      = true ∧
    deliversRecord
        (ten_env_log_with_size_formatted (ten_env_t.mk "ext" 1 false) 1 0
          (some "fn") 2 (some "a.c") 3 5 (some "cat") 3 none "m" [])
      = true ∧
    usesLengthQualified
        (ten_env_log (ten_env_t.mk "ext" 1 false) 1 0 (some "fn")
          (some "a.c") 5 "m" (some "cat") none)
      = false ∧
    deliversRecord
        (ten_env_log (ten_env_t.mk "ext" 1 false) 1 0 (some "fn")
          (some "a.c") 5 "m" (some "cat") none)
      = true :=
  C8_amended (ten_env_t.mk "ext" 1 false) 1 0 (some "fn") 2 (some "a.c")
    3 5 "m" (some "cat") 3 none "m" [] rfl rfl

/-- Claim C9: on an open handle called from its owning thread, the
formatted entry point's composed message is the instance-name prefix
followed by the full expansion of the format string against its
arguments, exactly and for every format and argument list — hence with
no truncation at any expanded length. -/
theorem C9_formatted_full_expansion (self : ten_env_t) (caller : Nat)
    (level : TEN_LOG_LEVEL) (funcName : CStr) (funcNameLen : Nat)
    (fileName : CStr) (fileNameLen : Nat) (lineNo : Nat) (category : CStr)
    (categoryLen : Nat) (fields : FieldsPtr) (fmt : String)
    (ap : List FmtArg)
    (_hopen : self.isClosed = false) (hthread : caller = self.owningThread) :
    submittedMessage
        (ten_env_log_with_size_formatted self caller level funcName
          funcNameLen fileName fileNameLen lineNo category categoryLen
          fields fmt ap)
      = some ("[" ++ self.attachedInstanceName ++ "] "
          ++ formatExpand fmt.data ap) := by
  simp [ten_env_log_with_size_formatted,
        ten_env_log_with_size_formatted_internal, ten_env_check_integrity,
        hthread, ten_env_get_attached_instance_name,
        ten_string_append_from_va_list, submittedMessage, List.findSome?]

/-- Witness for C9_formatted_full_expansion: format string
`"%d items"` with argument `5` composes to `"[ext] 5 items"`. -/
theorem C9_formatted_full_expansion_witness :
    submittedMessage
        (ten_env_log_with_size_formatted (ten_env_t.mk "ext" 2 false) 2 0
          (some "fn") 2 (some "a.c") 3 7 none 0 none "%d items"
          [FmtArg.int 5])
      = some "[ext] 5 items" := by
  rw [C9_formatted_full_expansion (ten_env_t.mk "ext" 2 false) 2 0
    (some "fn") 2 (some "a.c") 3 7 none 0 none "%d items"
    [FmtArg.int 5] rfl rfl]
  rfl

/-- Claim C10: `ten_env_log_formatted` applies `strlen` to its function-
and file-name pointers before any guard runs, so a NULL in either is
undefined behaviour for every handle, thread and state, while
`ten_env_log_with_size_formatted` forwards those pointers unscanned and
never hits that undefined behaviour. -/
theorem C10_strlen_precondition (self : ten_env_t) (caller : Nat)
    (level : TEN_LOG_LEVEL) (funcName : CStr) (funcNameLen : Nat)
    (fileName : CStr) (fileNameLen : Nat) (lineNo : Nat) (category : CStr)
    (categoryLen : Nat) (fields : FieldsPtr) (fmt : String)
    (ap : List FmtArg) :
    ten_env_log_formatted self caller level none fileName lineNo category
        categoryLen fields fmt ap = .undefined ∧
    ten_env_log_formatted self caller level funcName none lineNo category
        categoryLen fields fmt ap = .undefined ∧
    (ten_env_log_with_size_formatted self caller level funcName funcNameLen
        fileName fileNameLen lineNo category categoryLen fields fmt
        ap).isUndefined = false := by
  refine ⟨?_, ?_, ?_⟩
  · simp [ten_env_log_formatted, strlen]
  · cases funcName <;> simp [ten_env_log_formatted, strlen]
  · by_cases h : ten_env_check_integrity self true caller <;>
      simp [ten_env_log_with_size_formatted,
            ten_env_log_with_size_formatted_internal, h,
            LogResult.isUndefined]
